import Mathlib

/- Shallow embedding of the rule-based trade decision engine of the
formula1 repository: the basic engine (src/core.js), the master-engine
variant (src/unnamed/part_004), the pluggable rules module
(src/unnamed/part_005), the inline simulator engine
(src/unnamed/part_007) and the options selector (src/unnamed/part_004,
called by src/options.js).

JavaScript numeric conventions modelled here:
- a snapshot field can be undefined, null, NaN, or a finite number
  (type JOpt); the guard `v == null || isNaN(v)` is JOpt.isMissing and
  the test `!isNaN(v)` is JOpt.notNaN (isNaN(null) is false in
  JavaScript because Number(null) = 0, so an explicit null passes
  `!isNaN` and then coerces to 0 in arithmetic);
- machine floats are idealised as rationals; `(x).toFixed(2)` is kept
  as the rational it denotes (toFixed2), `Math.round(x*100)/100` is
  round2;
- `Math.random()` is an oracle (draw index → ℚ) whose values the
  theorems assume to lie in [0, 1);
- a decision field (entry/stop/target) is either the empty string, a
  number, or a numeric string such as a toFixed(2) result (type JVal);
  `Number("")` is 0, `Number` of a numeric string is its value;
- strings built by template interpolation of numbers are kept as
  structured notes (type Note) carrying the interpolated payloads. -/

namespace Formula1

/-- A JavaScript value held in a numeric snapshot field. -/
inductive JOpt where
  | undef
  | null
  | nan
  | num (q : ℚ)
deriving DecidableEq

/-- The invalid-field guard `v == null || isNaN(v)` used throughout the engine. -/
def JOpt.isMissing : JOpt → Bool
  | .num _ => false
  | _ => true

/-- The test `!isNaN(v)`: finite numbers and null pass (Number(null) = 0). -/
def JOpt.notNaN : JOpt → Bool
  | .num _ => true
  | .null => true
  | _ => false

/-- JavaScript truthiness of a numeric field (`!price` style tests). -/
def JOpt.truthy : JOpt → Bool
  | .num q => decide (q ≠ 0)
  | _ => false

/-- ToNumber coercion. Only used behind an isMissing, notNaN or truthy
test, so the undef/nan branches (which would give NaN in JavaScript)
are unreachable; null genuinely coerces to 0. -/
def JOpt.coerceNum : JOpt → ℚ
  | .num q => q
  | _ => 0

/-- ToNumber coercion with NaN propagation (none = NaN), used by the
future simulator where no guard precedes the arithmetic. -/
def JOpt.jsNum : JOpt → Option ℚ
  | .num q => some q
  | .null => some 0
  | _ => Option.none

/-- The structured numeric record extracted from one chart image. -/
structure Snapshot where
  price : JOpt
  dayHigh : JOpt
  dayLow : JOpt
  maFast : JOpt
  maSlow : JOpt
  ma200 : JOpt
deriving DecidableEq

/-- Trade direction of a decision or proposal. -/
inductive Dir where
  | call
  | put
  | none
deriving DecidableEq

/-- An entry/stop/target slot of a Decision: the empty-string
placeholder, a plain number, or a numeric string (a toFixed result). -/
inductive JVal where
  | empty
  | num (q : ℚ)
  | strNum (q : ℚ)
deriving DecidableEq

/-- JavaScript `Number(x)` on a decision slot; `Number("")` is 0. -/
def JVal.toNumber : JVal → ℚ
  | .empty => 0
  | .num q => q
  | .strNum q => q

/-- The risk:reward ratio as reported by the options selector:
"N/A", the JavaScript Infinity produced by a division by zero, or a
finite two-decimal value. -/
inductive RRVal where
  | na
  | inf
  | val (q : ℚ)
deriving DecidableEq

/-- One entry of a notes log. Literal strings stay strings; notes that
interpolate numbers keep the interpolated payloads structurally. -/
inductive Note where
  | text (s : String)
  | checking (rule : String)
  | fired (rule : String)
  | ruleError (rule msg : String)
  | evenBelow (nearest : ℚ)
  | evenNear (nearest : ℚ)
  | evenSitting (nearest : ℚ)
  | directionNote (s : String)
  | planNote (entry stop target : ℚ)
  | rrNote (r : RRVal)
  | timeframe (bucket : String)
  | ivNote (s : String)
deriving DecidableEq

/-- The decision object returned by the engines. -/
structure Decision where
  valid : Bool
  direction : Dir
  entry : JVal
  stop : JVal
  target : JVal
  wait : Bool
  notes : List Note
deriving DecidableEq

/-- A trade proposal returned by a rule's check function. -/
structure Proposal where
  direction : Dir
  entry : JVal
  stop : JVal
  target : JVal
  wait : Bool
deriving DecidableEq

/-- One point of the history context passed to pattern rules. -/
structure HistPoint where
  price : Option ℚ
  maFast : Option ℚ
  maSlow : Option ℚ
deriving DecidableEq

/-- The context record handed to rule check functions. -/
structure Ctx where
  history : List HistPoint
deriving DecidableEq

/-- Outcome of one rule.check invocation: a proposal, no proposal, or a
thrown exception; each carries the notes the rule pushed before
returning or throwing. -/
inductive ROut where
  | prop (p : Proposal) (notes : List Note)
  | noProp (notes : List Note)
  | throw (msg : String) (notes : List Note)

/-- A registered rule: a name and a check function. -/
structure Rule where
  name : String
  check : Snapshot → Ctx → ROut

/- ------------------------------------------------------------
   BASIC HELPERS (src/core.js lines 4-6, src/unnamed/part_004 lines 5-7)
   ------------------------------------------------------------ -/

/-- `Math.round(price / 5) * 5` (Math.round rounds half toward +∞, as does Mathlib round). -/
def nearestEven (price : ℚ) : ℚ := (round (price / 5) : ℤ) * 5

/-- `Math.ceil(price / 5) * 5`. -/
def nextEvenUp (price : ℚ) : ℚ := (⌈price / 5⌉ : ℤ) * 5

/-- `Math.floor(p / 5) * 5`. -/
def nextEvenDown (p : ℚ) : ℚ := (⌊p / 5⌋ : ℤ) * 5

/-- The numeric value of `(q).toFixed(2)` (nearest, ties toward +∞). -/
def toFixed2 (q : ℚ) : ℚ := (round (q * 100) : ℤ) / 100

/-- `Math.round(q * 100) / 100` as used for strike rounding. -/
def round2 (q : ℚ) : ℚ := (round (q * 100) : ℤ) / 100

/- ------------------------------------------------------------
   BULL FLAG DETECTOR (src/core.js lines 60-95; identical logic in
   src/unnamed/part_004 lines 47-78 and src/unnamed/part_007 lines 127-151)
   ------------------------------------------------------------ -/

/-- Result record of detectBullFlag. -/
structure FlagResult where
  isFlag : Bool
  notes : List Note
deriving DecidableEq

/-- detectBullFlag: guard the five required fields, then check range
position ≥ 0.6, price above both MAs, fast/slow spread ≤ 1% of price,
and (when ma200 passes `!isNaN`, which includes an explicit null
coerced to 0) a three-MA spread ≤ 2% of price. -/
def detectBullFlag (data : Snapshot) : FlagResult :=
  if data.price.isMissing || data.dayHigh.isMissing || data.dayLow.isMissing
      || data.maFast.isMissing || data.maSlow.isMissing then
    { isFlag := false, notes := [] }
  else
    let price := data.price.coerceNum
    let dayHigh := data.dayHigh.coerceNum
    let dayLow := data.dayLow.coerceNum
    let maFast := data.maFast.coerceNum
    let maSlow := data.maSlow.coerceNum
    let range := dayHigh - dayLow
    if range ≤ 0 then { isFlag := false, notes := [] }
    else
      let pos := (price - dayLow) / range
      if pos < 0.6 then { isFlag := false, notes := [] }
      else
        let n1 : List Note := [.text "Price is holding in the upper part of today’s range."]
        if price > maFast ∧ price > maSlow then
          let n2 := n1 ++ [.text "Price is above both fast and slow moving averages."]
          let diffFS := |maFast - maSlow|
          if diffFS > price * 0.01 then { isFlag := false, notes := n2 }
          else
            let n3 := n2 ++ [.text "Fast and slow MAs are almost on top of each other → tight flag."]
            if data.ma200.notNaN then
              let ma200 := data.ma200.coerceNum
              let maxMA := max (max maFast maSlow) ma200
              let minMA := min (min maFast maSlow) ma200
              if maxMA - minMA > price * 0.02 then { isFlag := false, notes := n3 }
              else
                { isFlag := true
                  notes := n3 ++ [.text "20 / 50 / 200 MAs are clustered → strong trend.",
                    .text "This matches your golden bullish flag continuation pattern."] }
            else
              { isFlag := true
                notes := n3 ++ [.text "This matches your golden bullish flag continuation pattern."] }
        else { isFlag := false, notes := n1 }

/- ------------------------------------------------------------
   UNIVERSAL DETECTORS (src/unnamed/part_004 lines 85-224)
   ------------------------------------------------------------ -/

/-- Result record of detectEvenProximity. -/
structure EvenProx where
  nearest : ℚ
  diff : ℚ
  isNear : Bool
  isJustAbove : Bool
  isJustBelow : Bool
deriving DecidableEq

/-- detectEvenProximity (part_004 lines 85-104): a price-scale
dependent step (the source assigns 0.05 then conditionally overwrites
with 0.5 / 1 / 5 / 10 as the price crosses 20 / 100 / 300 / 1000),
then nearest rounded level and proximity flags. -/
def detectEvenProximity (price : JOpt) : Option EvenProx :=
  if price.truthy then
    let p := price.coerceNum
    let step : ℚ :=
      if p > 1000 then 10 else if p > 300 then 5
      else if p > 100 then 1 else if p > 20 then 0.5 else 0.05
    let nearest := (round (p / step) : ℤ) * step
    let diff := p - nearest
    some { nearest := nearest, diff := diff,
           isNear := decide (|diff| ≤ step * 0.2),
           isJustAbove := decide (diff > 0 ∧ |diff| ≤ step * 0.2),
           isJustBelow := decide (diff < 0 ∧ |diff| ≤ step * 0.2) }
  else Option.none

/-- Result record of detectMACluster. -/
structure MACluster where
  clustered : Bool
  spread : Option ℚ
  maxv : Option ℚ
  minv : Option ℚ
deriving DecidableEq

/-- detectMACluster (part_004 lines 107-121): keep the finite moving
averages (`v != null && !isNaN(v)` keeps exactly the numbers), require
at least two of them and a truthy price, then compare the spread with
1.5% of price. -/
def detectMACluster (data : Snapshot) : MACluster :=
  let arr := [data.maFast, data.maSlow, data.ma200].filterMap
    (fun v => match v with | .num q => some q | _ => Option.none)
  if arr.length < 2 ∨ data.price.truthy = false then
    { clustered := false, spread := Option.none, maxv := Option.none, minv := Option.none }
  else
    let mx := arr.max?.getD 0
    let mn := arr.min?.getD 0
    let spread := mx - mn
    { clustered := decide (spread ≤ data.price.coerceNum * 0.015),
      spread := some spread, maxv := some mx, minv := some mn }

/-- Result record of detectDoubleTopBottom. -/
structure DTB where
  doubleTop : Bool
  doubleBottom : Bool
  maxv : Option ℚ
  minv : Option ℚ
deriving DecidableEq

/-- detectDoubleTopBottom (part_004 lines 186-204): with ≥5 usable
history prices, flag a double top/bottom when at least two prices lie
within the tolerance of the series maximum/minimum. -/
def detectDoubleTopBottom (history : List HistPoint) (tolerance : ℚ) : DTB :=
  if history.length < 5 then
    { doubleTop := false, doubleBottom := false, maxv := Option.none, minv := Option.none }
  else
    let prices := history.filterMap (fun c => c.price)
    if prices.length < 5 then
      { doubleTop := false, doubleBottom := false, maxv := Option.none, minv := Option.none }
    else
      let mx := prices.max?.getD 0
      let mn := prices.min?.getD 0
      let topHits := (prices.filter (fun h => decide (|h - mx| ≤ tolerance))).length
      let bottomHits := (prices.filter (fun h => decide (|h - mn| ≤ tolerance))).length
      { doubleTop := decide (topHits ≥ 2), doubleBottom := decide (bottomHits ≥ 2),
        maxv := some mx, minv := some mn }

/-- Result record of detectRounding. -/
structure RoundingRes where
  roundingBottom : Bool
  roundingTop : Bool
deriving DecidableEq

/-- detectRounding (part_004 lines 207-224): with ≥10 usable history
prices, compare first, middle and last price. -/
def detectRounding (history : List HistPoint) : RoundingRes :=
  if history.length < 10 then { roundingBottom := false, roundingTop := false }
  else
    let prices := history.filterMap (fun c => c.price)
    if prices.length < 10 then { roundingBottom := false, roundingTop := false }
    else
      let mid := prices.length / 2
      let left := prices.headD 0
      let center := prices.getD mid 0
      let right := prices.getD (prices.length - 1) 0
      { roundingBottom := decide (center < left ∧ center < right),
        roundingTop := decide (center > left ∧ center > right) }

/- ------------------------------------------------------------
   BASELINE RULES (src/core.js lines 106-186)
   ------------------------------------------------------------ -/

/-- Rule "Bullish Flag Golden Play" (src/core.js lines 106-132): fire
iff detectBullFlag signals a flag; entry = next even grid level above
price, stop = (entry*0.8).toFixed(2), target = (dayHigh + range*0.5 ||
price*1.03).toFixed(2), wait when price > entry*1.02. -/
def bullishFlagCheck (data : Snapshot) (_ctx : Ctx) : ROut :=
  let flag := detectBullFlag data
  if flag.isFlag = false then .noProp []
  else
    let ns := flag.notes ++ [.text "FLAG DETECTED → GOLDEN PLAY continuation setup."]
    let price := data.price.coerceNum
    let dayHigh := data.dayHigh.coerceNum
    let dayLow := data.dayLow.coerceNum
    let entry := nextEvenUp price
    let stop := toFixed2 (entry * 0.8)
    let range := if data.dayHigh.truthy ∧ data.dayLow.truthy then dayHigh - dayLow else price * 0.03
    let target0 := dayHigh + range * 0.5
    let target := toFixed2 (if target0 ≠ 0 then target0 else price * 1.03)
    let wait := decide (price > entry * 1.02)
    let ns := if wait then
        ns ++ [.text "Price is already stretched above the clean entry → better to wait for a pullback."]
      else ns
    .prop { direction := .call, entry := .num entry, stop := .strNum stop,
            target := .strNum target, wait := wait } ns

/-- Rule "Basic MA Trend" (src/core.js lines 135-186): direction from
the fast/slow MA ordering versus price, optional golden/death-cross
notes, grid entry, stop at 80%/120% of entry, target at price ± day
range, wait when price is stretched >2% past the entry. -/
def basicMATrendCheck (data : Snapshot) (_ctx : Ctx) : ROut :=
  if data.price.isMissing || data.maFast.isMissing || data.maSlow.isMissing then
    .noProp [.text "Trend rule skipped: missing price or MAs."]
  else
    let price := data.price.coerceNum
    let maFast := data.maFast.coerceNum
    let maSlow := data.maSlow.coerceNum
    let dayHigh := data.dayHigh.coerceNum
    let dayLow := data.dayLow.coerceNum
    let ma200Notes :=
      if data.ma200.notNaN then
        let ma200 := data.ma200.coerceNum
        (if maFast > maSlow ∧ maFast > ma200 then [Note.text "Golden cross style uptrend."] else [])
          ++ (if maFast < maSlow ∧ maFast < ma200 then [Note.text "Death cross style downtrend."] else [])
      else []
    if maFast > maSlow ∧ price > maFast then
      let ns := [Note.text "Fast MA above slow MA and price above both → up move."] ++ ma200Notes
      let entry := nextEvenUp price
      let stop := toFixed2 (entry * 0.8)
      let range := if data.dayHigh.truthy ∧ data.dayLow.truthy then dayHigh - dayLow else price * 0.03
      let target := toFixed2 (price + range)
      let wait := decide (price > entry * 1.02)
      let ns := if wait then
          ns ++ [.text "Price is already stretched above the clean entry → better to wait for a pullback."]
        else ns
      .prop { direction := .call, entry := .num entry, stop := .strNum stop,
              target := .strNum target, wait := wait } ns
    else if maFast < maSlow ∧ price < maFast then
      let ns := [Note.text "Fast MA below slow MA and price below both → down move."] ++ ma200Notes
      let entry := nextEvenDown price
      let stop := toFixed2 (entry * 1.2)
      let range := if data.dayHigh.truthy ∧ data.dayLow.truthy then dayHigh - dayLow else price * 0.03
      let target := toFixed2 (price - range)
      let wait := decide (price < entry * 0.98)
      let ns := if wait then
          ns ++ [.text "Price is already stretched below the clean entry → better to wait for a bounce."]
        else ns
      .prop { direction := .put, entry := .num entry, stop := .strNum stop,
              target := .strNum target, wait := wait } ns
    else
      .noProp [.text "Trend rule: moving averages do not clearly show up or down."]

/-- The registry the basic engine is started with (src/core.js lines 106 and 135). -/
def rulesBasic : List Rule :=
  [{ name := "Bullish Flag Golden Play", check := bullishFlagCheck },
   { name := "Basic MA Trend", check := basicMATrendCheck }]

/- ------------------------------------------------------------
   ADVANCED RULES (src/unnamed/part_005, registered into the
   master engine of src/unnamed/part_004)
   ------------------------------------------------------------ -/

/-- Rule 1 "Bullish Flag Golden Play" (part_005 lines 17-45): the flag
detector plus even-proximity and MA-cluster side notes; the part_005
variant computes target without the price*1.03 fallback and pushes no
wait note. -/
def bullishFlagCheckAdv (data : Snapshot) (_ctx : Ctx) : ROut :=
  let flag := detectBullFlag data
  if flag.isFlag = false then .noProp []
  else
    let evenNotes :=
      match detectEvenProximity data.price with
      | some even => if even.isJustBelow then [Note.evenBelow even.nearest] else []
      | _ => []
    let clusterNotes :=
      if (detectMACluster data).clustered then
        [Note.text "MAs are tightly clustered → strong consolidation before move."]
      else []
    let ns := flag.notes ++ evenNotes ++ clusterNotes
    let price := data.price.coerceNum
    let dayHigh := data.dayHigh.coerceNum
    let dayLow := data.dayLow.coerceNum
    let entry := nextEvenUp price
    let stop := toFixed2 (entry * 0.8)
    let range := if data.dayHigh.truthy ∧ data.dayLow.truthy then dayHigh - dayLow else price * 0.03
    let target := toFixed2 (dayHigh + range * 0.5)
    let wait := decide (price > entry * 1.02)
    .prop { direction := .call, entry := .num entry, stop := .strNum stop,
            target := .strNum target, wait := wait } ns

/-- Rule 2 "Basic MA Trend" (part_005 lines 48-92): like the baseline
trend rule but silent on missing data, with even-level and cluster
side notes instead of the golden/death-cross notes. The source uses
two independent ifs to pick the direction; their guards are mutually
exclusive, so an if/else-if chain is equivalent. -/
def basicMATrendCheckAdv (data : Snapshot) (_ctx : Ctx) : ROut :=
  if data.price.isMissing || data.maFast.isMissing || data.maSlow.isMissing then
    .noProp []
  else
    let price := data.price.coerceNum
    let maFast := data.maFast.coerceNum
    let maSlow := data.maSlow.coerceNum
    let dayHigh := data.dayHigh.coerceNum
    let dayLow := data.dayLow.coerceNum
    let evenNotes :=
      match detectEvenProximity data.price with
      | some even => if even.isNear then [Note.evenNear even.nearest] else []
      | _ => []
    let clusterNotes :=
      if (detectMACluster data).clustered then
        [Note.text "MAs are clustered → consolidation inside trend."]
      else []
    let range := if data.dayHigh.truthy ∧ data.dayLow.truthy then dayHigh - dayLow else price * 0.03
    if maFast > maSlow ∧ price > maFast then
      let ns := [Note.text "Fast MA above slow MA and price above fast MA → uptrend."]
        ++ evenNotes ++ clusterNotes
      let entry := nextEvenUp price
      .prop { direction := .call, entry := .num entry, stop := .strNum (toFixed2 (entry * 0.8)),
              target := .strNum (toFixed2 (price + range)),
              wait := decide (price > entry * 1.02) } ns
    else if maFast < maSlow ∧ price < maFast then
      let ns := [Note.text "Fast MA below slow MA and price below fast MA → downtrend."]
        ++ evenNotes ++ clusterNotes
      let entry := nextEvenDown price
      .prop { direction := .put, entry := .num entry, stop := .strNum (toFixed2 (entry * 1.2)),
              target := .strNum (toFixed2 (price - range)),
              wait := decide (price < entry * 0.98) } ns
    else
      .noProp []

/-- Rule 3 "Even Number Breakout + MA Cluster" (part_005 lines 95-117). -/
def evenBreakoutCheck (data : Snapshot) (_ctx : Ctx) : ROut :=
  if data.price.truthy = false then .noProp []
  else
    match detectEvenProximity data.price with
    | Option.none => .noProp []
    | some even =>
      if even.isJustBelow = false then .noProp []
      else if (detectMACluster data).clustered = false then .noProp []
      else
        let price := data.price.coerceNum
        let dayHigh := data.dayHigh.coerceNum
        let dayLow := data.dayLow.coerceNum
        let ns := [Note.evenSitting even.nearest,
                   Note.text "MAs are tightly clustered → coiled spring setup."]
        let entry := even.nearest + 0.05
        let stop := toFixed2 (entry * 0.8)
        let range := if data.dayHigh.truthy ∧ data.dayLow.truthy then dayHigh - dayLow else price * 0.03
        let target := toFixed2 (entry + range)
        .prop { direction := .call, entry := .num entry, stop := .strNum stop,
                target := .strNum target, wait := false } ns

/-- Rule 4 "Double Top / Bottom Reversal" (part_005 lines 120-148):
fires from history alone (plus a truthy price), with no moving-average
requirement. -/
def doubleTopBottomCheck (data : Snapshot) (ctx : Ctx) : ROut :=
  if ctx.history.length < 5 then .noProp []
  else
    let pattern := detectDoubleTopBottom ctx.history 0.3
    if data.price.truthy = false then .noProp []
    else
      let price := data.price.coerceNum
      if pattern.doubleTop then
        let entry := nextEvenDown price
        .prop { direction := .put, entry := .num entry, stop := .strNum (toFixed2 (entry * 1.2)),
                target := .strNum (toFixed2 (price - price * 0.03)), wait := false }
          [Note.text "Double top detected near recent highs → potential reversal down."]
      else if pattern.doubleBottom then
        let entry := nextEvenUp price
        .prop { direction := .call, entry := .num entry, stop := .strNum (toFixed2 (entry * 0.8)),
                target := .strNum (toFixed2 (price + price * 0.03)), wait := false }
          [Note.text "Double bottom detected near recent lows → potential reversal up."]
      else .noProp []

/-- Rule 5 "Rounding Bottom / Top Swing" (part_005 lines 151-179). -/
def roundingSwingCheck (data : Snapshot) (ctx : Ctx) : ROut :=
  if ctx.history.length < 10 then .noProp []
  else
    let rounding := detectRounding ctx.history
    if data.price.truthy = false then .noProp []
    else
      let price := data.price.coerceNum
      if rounding.roundingBottom then
        let entry := nextEvenUp price
        .prop { direction := .call, entry := .num entry, stop := .strNum (toFixed2 (entry * 0.85)),
                target := .strNum (toFixed2 (price + price * 0.05)), wait := false }
          [Note.text "Rounding bottom pattern detected → accumulation then push higher."]
      else if rounding.roundingTop then
        let entry := nextEvenDown price
        .prop { direction := .put, entry := .num entry, stop := .strNum (toFixed2 (entry * 1.15)),
                target := .strNum (toFixed2 (price - price * 0.05)), wait := false }
          [Note.text "Rounding top pattern detected → distribution then drop."]
      else .noProp []

/-- The registry the master engine is started with (part_005 registration order). -/
def rulesAdv : List Rule :=
  [{ name := "Bullish Flag Golden Play", check := bullishFlagCheckAdv },
   { name := "Basic MA Trend", check := basicMATrendCheckAdv },
   { name := "Even Number Breakout + MA Cluster", check := evenBreakoutCheck },
   { name := "Double Top / Bottom Reversal", check := doubleTopBottomCheck },
   { name := "Rounding Bottom / Top Swing", check := roundingSwingCheck }]

/- ------------------------------------------------------------
   DECISION ENGINES
   ------------------------------------------------------------ -/

/-- Shared first-match loop of the basic engine (src/core.js lines
197-223) and the master engine (src/unnamed/part_004 lines 238-256):
push "Checking rule", run the check, on a proposal push "Rule fired"
and return a valid Decision; neither engine catches a thrown rule
exception, so a throw aborts the run and the notes are lost. -/
def decideTradeGo (data : Snapshot) (ctx : Ctx) : List Rule → List Note → Except String Decision
  | [], notes =>
    .ok { valid := false, direction := .none, entry := .empty, stop := .empty,
          target := .empty, wait := true,
          notes := notes ++ [.text "No rule fired → no simple trade."] }
  | r :: rs, notes =>
    let notes := notes ++ [Note.checking r.name]
    match r.check data ctx with
    | .throw msg _ => .error msg
    | .noProp ns => decideTradeGo data ctx rs (notes ++ ns)
    | .prop p ns =>
      .ok { valid := true, direction := p.direction, entry := p.entry, stop := p.stop,
            target := p.target, wait := p.wait,
            notes := notes ++ ns ++ [Note.fired r.name] }

/-- The basic engine decideTrade (src/core.js lines 189-224): reject a
snapshot whose price or moving averages are missing before consulting
any rule, then run the first-match loop. -/
def decideTrade (registry : List Rule) (data : Snapshot) (ctx : Ctx) : Except String Decision :=
  if data.price.isMissing || data.maFast.isMissing || data.maSlow.isMissing then
    .ok { valid := false, direction := .none, entry := .empty, stop := .empty,
          target := .empty, wait := true,
          notes := [.text "Could not read price and moving averages clearly."] }
  else decideTradeGo data ctx registry []

/-- The master engine decideTrade (src/unnamed/part_004 lines 235-257):
the same first-match loop with no input guard. -/
def decideTradeM (registry : List Rule) (data : Snapshot) (ctx : Ctx) : Except String Decision :=
  decideTradeGo data ctx registry []

/-- First-match loop of the inline simulator engine (src/unnamed/part_007
lines 292-308): identical to the others except that a thrown rule
exception is caught, logged as a "Rule error" note (after whatever the
rule already pushed) and treated as no proposal. -/
def decideTradeSimGo (data : Snapshot) (ctx : Ctx) : List Rule → List Note → Decision
  | [], notes =>
    { valid := false, direction := .none, entry := .empty, stop := .empty,
      target := .empty, wait := true,
      notes := notes ++ [.text "No rule fired → no simple trade."] }
  | r :: rs, notes =>
    let notes := notes ++ [Note.checking r.name]
    match r.check data ctx with
    | .throw msg ns => decideTradeSimGo data ctx rs (notes ++ ns ++ [Note.ruleError r.name msg])
    | .noProp ns => decideTradeSimGo data ctx rs (notes ++ ns)
    | .prop p ns =>
      { valid := true, direction := p.direction, entry := p.entry, stop := p.stop,
        target := p.target, wait := p.wait,
        notes := notes ++ ns ++ [Note.fired r.name] }

/-- The inline simulator engine decideTrade (src/unnamed/part_007 lines 292-308). -/
def decideTradeSim (registry : List Rule) (data : Snapshot) (ctx : Ctx) : Decision :=
  decideTradeSimGo data ctx registry []

/- ------------------------------------------------------------
   FUTURE SIMULATION (src/core.js lines 227-250)
   ------------------------------------------------------------ -/

/-- JavaScript addition with NaN propagation. -/
def jadd (a b : Option ℚ) : Option ℚ := Option.map₂ (· + ·) a b

/-- JavaScript subtraction with NaN propagation. -/
def jsub (a b : Option ℚ) : Option ℚ := Option.map₂ (· - ·) a b

/-- JavaScript multiplication with NaN propagation. -/
def jmul (a b : Option ℚ) : Option ℚ := Option.map₂ (· * ·) a b

/-- simulateFuture (src/core.js lines 227-250): for an invalid or
directionless decision, 30 independent noise samples around price
(each `price + (random - 0.5) * (price * 0.002)`); otherwise a biased
walk `current = current + bias*price*0.003 + (random - 0.5)*(price*0.001)`.
The random source is an oracle indexed by draw number. -/
def simulateFuture (rand : ℕ → ℚ) (data : Snapshot) (decision : Decision) : List (Option ℚ) :=
  let price := data.price.jsNum
  if decision.valid = false ∨ decision.direction = Dir.none then
    (List.range 30).map
      (fun i => jadd price (jmul (jsub (some (rand i)) (some 0.5)) (jmul price (some 0.002))))
  else
    let bias : ℚ := if decision.direction = Dir.call then 1 else -1
    let result := (List.range 30).foldl
      (fun (acc : Option ℚ × List (Option ℚ)) i =>
        let current := jadd (jadd acc.1 (jmul (jmul (some bias) price) (some 0.003)))
          (jmul (jsub (some (rand i)) (some 0.5)) (jmul price (some 0.001)))
        (current, acc.2 ++ [current]))
      (price, [])
    result.2

/- ------------------------------------------------------------
   ADVANCED OPTIONS PICKER (src/unnamed/part_004 lines 288-376,
   invoked with daysToExpiry = null by src/options.js line 172)
   ------------------------------------------------------------ -/

/-- Moneyness classification of an option candidate. -/
inductive Money where
  | ITM
  | ATM
  | OTM
deriving DecidableEq

/-- One candidate contract of the strike ladder. -/
structure Candidate where
  underlying : String
  strike : ℚ
  dir : Dir
  moneyness : Money
  styleHint : String
deriving DecidableEq

/-- The plan record returned by pickOptionsContract. -/
structure OptionsPlan where
  directionText : String
  summary : String
  recommended : Option Candidate
  candidates : List Candidate
  notes : List Note
deriving DecidableEq

/-- Moneyness of a strike relative to the entry, per direction
(part_004 lines 328-331); the put arm is the `:` branch of the
source's `direction === "call"` ternary. -/
def moneynessOf (dir : Dir) (strike entry : ℚ) : Money :=
  match dir with
  | .call => if strike < entry then .ITM else if strike = entry then .ATM else .OTM
  | _ => if strike > entry then .ITM else if strike = entry then .ATM else .OTM

/-- pickOptionsContract (part_004 lines 288-376). daysToExpiry is
either null (Option.none; `null <= c` is true in JavaScript because
null coerces to 0) or a number. The risk:reward ratio reproduces the
source guard exactly: it tests rewardPerShare > 0, so a zero
riskPerShare with positive reward divides by zero, which JavaScript
renders as Infinity. -/
def pickOptionsContract (decision : Decision) (daysToExpiry : Option ℚ)
    (underlying : String) (ivHint : Option String) : OptionsPlan :=
  if decision.valid = false then
    { directionText := "No clear trade.",
      summary := "The setup is not clean enough to choose a contract.",
      recommended := Option.none, candidates := [],
      notes := [.text "No rule fired strongly enough to justify an options position.",
                .text "Wait for a cleaner alignment of price, MAs, and pattern."] }
  else
    let dirText := if decision.direction = Dir.call then "CALL – expecting upside."
      else "PUT – expecting downside."
    let d := daysToExpiry.getD 0
    let expiryBucket :=
      if d ≤ 2 then "0DTE–2DTE scalp"
      else if d ≤ 5 then "short‑term momentum"
      else if d ≤ 10 then "swing for about a week"
      else if d ≤ 20 then "1–3 week swing"
      else "position trade"
    let entry := decision.entry.toNumber
    let stop := decision.stop.toNumber
    let target := decision.target.toNumber
    let riskPerShare := |entry - stop|
    let rewardPerShare := |target - entry|
    let rr : RRVal :=
      if rewardPerShare > 0 then
        if riskPerShare = 0 then RRVal.inf else RRVal.val (toFixed2 (rewardPerShare / riskPerShare))
      else RRVal.na
    let strike0 := round2 entry
    let strike1 := round2 (if decision.direction = Dir.call then entry + 1 else entry - 1)
    let strike2 := round2 (if decision.direction = Dir.call then entry - 1 else entry + 1)
    let c0 : Candidate :=
      { underlying := underlying, strike := strike0, dir := decision.direction,
        moneyness := moneynessOf decision.direction strike0 entry,
        styleHint := "balanced risk/reward, clean alignment with entry" }
    let c1 : Candidate :=
      { underlying := underlying, strike := strike1, dir := decision.direction,
        moneyness := moneynessOf decision.direction strike1 entry,
        styleHint := "cheaper, higher leverage, more aggressive" }
    let c2 : Candidate :=
      { underlying := underlying, strike := strike2, dir := decision.direction,
        moneyness := moneynessOf decision.direction strike2 entry,
        styleHint := "safer, more expensive, more forgiving" }
    let candidates := [c0, c1, c2]
    let recommendedIndex : ℕ := if d ≤ 2 then 1 else if d ≤ 10 then 0 else 2
    let recommended := candidates.get? recommendedIndex
    let ivNotes := match ivHint with
      | some s => if s ≠ "" then [Note.ivNote s] else []
      | _ => []
    let waitNote := if decision.wait then
        Note.text "Price is stretched relative to the planned entry → WAIT for a better fill."
      else
        Note.text "Price is close enough to the planned entry → OK to begin scaling in."
    { directionText := dirText,
      summary := "Advanced contract guidance based on your golden rules and current setup.",
      recommended := recommended, candidates := candidates,
      notes := [Note.directionNote dirText,
                Note.planNote (toFixed2 entry) (toFixed2 stop) (toFixed2 target),
                Note.rrNote rr, Note.timeframe expiryBucket]
        ++ ivNotes ++ [waitNote]
        ++ [Note.text "Use the underlying stop, not the option price, to manage risk."] }

/- ------------------------------------------------------------
   CONCRETE INPUTS USED BY THE THEOREMS
   ------------------------------------------------------------ -/

/-- The bull-flag snapshot of the specification's worked example. -/
def snapC5 : Snapshot :=
  { price := .num 110, dayHigh := .num 112, dayLow := .num 100,
    maFast := .num 109, maSlow := .num 109.2, ma200 := .num 109.5 }

/-- The worked example with dayLow mutated to 80. -/
def snapC5low80 : Snapshot := { snapC5 with dayLow := .num 80 }

/-- The worked example with dayHigh mutated to 120 (range position 0.5). -/
def snapC5high120 : Snapshot := { snapC5 with dayHigh := .num 120 }

/-- The worked example with an explicit null ma200. -/
def snapMa200Null : Snapshot := { snapC5 with ma200 := .null }

/-- The worked example with ma200 undefined (absent key). -/
def snapMa200Undef : Snapshot := { snapC5 with ma200 := .undef }

/-- A snapshot with a price but no moving averages and no day range. -/
def snapC1 : Snapshot :=
  { price := .num 100, dayHigh := .undef, dayLow := .undef,
    maFast := .undef, maSlow := .undef, ma200 := .undef }

/-- A history point at price 100 with no moving averages. -/
def histPt100 : HistPoint := { price := some 100, maFast := Option.none, maSlow := Option.none }

/-- Five history points all at price 100: a (degenerate) double top and bottom. -/
def ctxC1 : Ctx := { history := [histPt100, histPt100, histPt100, histPt100, histPt100] }

/-- The empty history context. -/
def ctxEmpty : Ctx := { history := [] }

/-- A snapshot on which the baseline trend rule fires its put branch. -/
def snapTrendPut : Snapshot :=
  { price := .num 95, dayHigh := .undef, dayLow := .undef,
    maFast := .num 96, maSlow := .num 97, ma200 := .undef }

/-- The decision the basic engine produces on snapTrendPut. -/
def dTrendPut : Decision :=
  { valid := true, direction := .put, entry := .num 95, stop := .strNum 114,
    target := .strNum 92.15, wait := false,
    notes := [Note.checking "Bullish Flag Golden Play", Note.checking "Basic MA Trend",
              Note.text "Fast MA below slow MA and price below both → down move.",
              Note.fired "Basic MA Trend"] }

/-- A registered rule whose check function throws. -/
def ruleBoom : Rule :=
  { name := "Exploding Rule", check := fun _ _ => ROut.throw "boom" [] }

/-- The registry-exhaustion decision of an engine started with no rules. -/
def dNoRule : Decision :=
  { valid := false, direction := .none, entry := .empty, stop := .empty,
    target := .empty, wait := true,
    notes := [Note.text "No rule fired → no simple trade."] }

/-- An invalid decision with empty notes, as persisted invalid decisions look. -/
def decInvalid : Decision :=
  { valid := false, direction := .none, entry := .empty, stop := .empty,
    target := .empty, wait := true, notes := [] }

/-- A valid call decision with entry 100, stop 80, target 105. -/
def dEx : Decision :=
  { valid := true, direction := .call, entry := .num 100, stop := .strNum 80,
    target := .strNum 105, wait := false, notes := [] }

/-- A valid call decision whose stop equals its entry: risk-per-share 0. -/
def decZeroRisk : Decision :=
  { valid := true, direction := .call, entry := .num 100, stop := .strNum 100,
    target := .strNum 105, wait := false, notes := [] }

/-- The constant random oracle returning 0.5 (zero noise). -/
def randHalf : ℕ → ℚ := fun _ => 0.5

/- ------------------------------------------------------------
   THEOREMS
   ------------------------------------------------------------ -/

/-- C5 counterexample: the claim asserts detectBullFlag with dayLow
mutated to 80 returns isFlag = false, but the code returns true —
lowering dayLow raises the range position of the price (to 0.9375),
so no condition fails. -/
theorem c5_counterexample : (detectBullFlag snapC5low80).isFlag = true := by
  norm_num [detectBullFlag, snapC5low80, snapC5, JOpt.isMissing, JOpt.coerceNum, JOpt.notNaN,
    abs_of_nonneg]

/-- C5 amended: the worked snapshot is a flag; mutating dayLow to 80
leaves it a flag (range position 0.9375 is still ≥ 0.6); the mutation
that produces the claimed range position 0.5 and flips the result to
false is dayHigh := 120. -/
theorem c5_flag_examples :
    (detectBullFlag snapC5).isFlag = true ∧
    (detectBullFlag snapC5low80).isFlag = true ∧
    (detectBullFlag snapC5high120).isFlag = false := by
  norm_num [detectBullFlag, snapC5low80, snapC5high120, snapC5, JOpt.isMissing, JOpt.coerceNum,
    JOpt.notNaN, abs_of_nonneg]

/-- C6 counterexample: the claim asserts that with ma200 absent (null)
only conditions (a)-(c) are required, but with an explicit null ma200
the code enters the cluster check (isNaN(null) is false) with ma200
coerced to 0 and rejects the flag; only an undefined (or NaN) ma200
skips condition (d). -/
theorem c6_counterexample :
    (detectBullFlag snapMa200Null).isFlag = false ∧
    (detectBullFlag snapMa200Undef).isFlag = true := by
  norm_num [detectBullFlag, snapMa200Null, snapMa200Undef, snapC5, JOpt.isMissing,
    JOpt.coerceNum, JOpt.notNaN, abs_of_nonneg]

/-- C7 counterexample: the claim asserts daysToExpiry = 15 yields the
at-entry candidate, but the recommendation buckets are d ≤ 2 / d ≤ 10
/ else, so 15 falls in the else bucket and the conservative candidate
(strike entry − 1, the "safer" hint) is recommended instead. -/
theorem c7_counterexample :
    ((pickOptionsContract dEx (some 15) "TICK" Option.none).recommended.map Candidate.strike
      = some 99) ∧
    ((pickOptionsContract dEx (some 15) "TICK" Option.none).recommended.map Candidate.styleHint
      = some "safer, more expensive, more forgiving") := by
  norm_num [pickOptionsContract, dEx, JVal.toNumber, round2, moneynessOf]

/-- C8 (code_bug): the ratio guard tests rewardPerShare > 0 instead of
riskPerShare > 0, so a valid decision whose stop equals its entry
(risk-per-share 0, reward 5) divides by zero and the plan reports the
JavaScript Infinity value instead of "N/A". -/
theorem c8_zero_risk_divides :
    (pickOptionsContract decZeroRisk (some 5) "T" Option.none).notes.get? 2
      = some (Note.rrNote RRVal.inf) := by
  norm_num [pickOptionsContract, decZeroRisk, JVal.toNumber, round2, toFixed2, moneynessOf]

/-- C1 counterexample: the master-engine decideTrade has no input
guard, so on a snapshot whose moving averages are all missing but with
a five-point flat history the Double Top / Bottom Reversal rule fires
and a valid put decision is returned, contradicting the claimed
valid = false, direction = "none". -/
theorem c1_counterexample :
    (decideTradeM rulesAdv snapC1 ctxC1).toOption.map (fun d => (d.valid, d.direction))
      = some (true, Dir.put) := by
  have h1 : bullishFlagCheckAdv snapC1 ctxC1 = ROut.noProp [] := by
    norm_num [bullishFlagCheckAdv, detectBullFlag, snapC1, JOpt.isMissing]
  have h2 : basicMATrendCheckAdv snapC1 ctxC1 = ROut.noProp [] := by
    norm_num [basicMATrendCheckAdv, snapC1, JOpt.isMissing]
  have hep : detectEvenProximity (JOpt.num 100)
      = some { nearest := 100, diff := 0, isNear := true, isJustAbove := false,
               isJustBelow := false } := by
    norm_num [detectEvenProximity, JOpt.truthy, JOpt.coerceNum]
  have h3 : evenBreakoutCheck snapC1 ctxC1 = ROut.noProp [] := by
    norm_num [evenBreakoutCheck, snapC1, JOpt.truthy, hep]
  have hlen : ctxC1.history.length = 5 := rfl
  have hpr : ctxC1.history.filterMap (fun c => c.price) = [100, 100, 100, 100, 100] := rfl
  have hdtb : detectDoubleTopBottom ctxC1.history (3/10)
      = { doubleTop := true, doubleBottom := true, maxv := some 100, minv := some 100 } := by
    norm_num [detectDoubleTopBottom, hlen, hpr, List.max?, List.min?, List.filter, List.foldl]
  have h4 : doubleTopBottomCheck snapC1 ctxC1
      = ROut.prop
          { direction := .put, entry := .num 100, stop := .strNum 120,
            target := .strNum 97, wait := false }
          [Note.text "Double top detected near recent highs → potential reversal down."] := by
    norm_num [doubleTopBottomCheck, hlen, hdtb, snapC1, JOpt.truthy, JOpt.coerceNum,
      nextEvenDown, toFixed2]
  simp only [decideTradeM, decideTradeGo, rulesAdv, h1, h2, h3, h4, Except.toOption,
    Option.map, List.append_nil, List.nil_append]

/-- C3 counterexample: the basic engine decideTrade has no try/catch
around rule.check, so a registry containing a throwing rule makes the
whole call propagate the exception instead of logging and continuing. -/
theorem c3_counterexample :
    decideTrade [ruleBoom] snapTrendPut ctxEmpty = Except.error "boom" := rfl

/-- C1 amended: the input guard exists only in the basic engine
(src/core.js): there, a snapshot whose price, maFast or maSlow is
missing or NaN yields valid = false and direction = "none" regardless
of the registry and the history; the master-engine variant has no such
guard and the property fails there (see the counterexample). -/
theorem c1_basic_guard (registry : List Rule) (data : Snapshot) (ctx : Ctx)
    (h : data.price.isMissing = true ∨ data.maFast.isMissing = true
      ∨ data.maSlow.isMissing = true) :
    decideTrade registry data ctx
      = Except.ok { valid := false, direction := Dir.none, entry := JVal.empty,
                    stop := JVal.empty, target := JVal.empty, wait := true,
                    notes := [Note.text "Could not read price and moving averages clearly."] } := by
  unfold decideTrade
  rcases h with h | h | h <;> simp [h]

/-- C1 witness: on the snapshot of the counterexample (price present,
moving averages missing) the basic engine rejects the input for every
registry, here the advanced one. -/
theorem c1_witness :
    decideTrade rulesAdv snapC1 ctxC1
      = Except.ok { valid := false, direction := Dir.none, entry := JVal.empty,
                    stop := JVal.empty, target := JVal.empty, wait := true,
                    notes := [Note.text "Could not read price and moving averages clearly."] } :=
  c1_basic_guard rulesAdv snapC1 ctxC1 (Or.inr (Or.inl rfl))

/-- Shape of an invalid decision produced by the shared first-match
loop: only the registry-exhaustion return yields valid = false, and it
carries the fixed placeholder fields. -/
theorem decideTradeGo_ok_invalid (data : Snapshot) (ctx : Ctx) :
    ∀ (rs : List Rule) (acc : List Note) (d : Decision),
      decideTradeGo data ctx rs acc = Except.ok d → d.valid = false →
      d.direction = Dir.none ∧ d.entry = JVal.empty ∧ d.stop = JVal.empty
        ∧ d.target = JVal.empty ∧ d.wait = true := by
  intro rs
  induction rs with
  | nil =>
    intro acc d h _
    simp only [decideTradeGo, Except.ok.injEq] at h
    subst h
    exact ⟨rfl, rfl, rfl, rfl, rfl⟩
  | cons r rs ih =>
    intro acc d h hv
    simp only [decideTradeGo] at h
    split at h
    · simp at h
    · exact ih _ d h hv
    · simp only [Except.ok.injEq] at h
      subst h
      simp at hv

/-- Shape of an invalid decision produced by the simulator engine's
loop, which is total (exceptions are caught). -/
theorem decideTradeSimGo_invalid (data : Snapshot) (ctx : Ctx) :
    ∀ (rs : List Rule) (acc : List Note) (d : Decision),
      decideTradeSimGo data ctx rs acc = d → d.valid = false →
      d.direction = Dir.none ∧ d.entry = JVal.empty ∧ d.stop = JVal.empty
        ∧ d.target = JVal.empty ∧ d.wait = true := by
  intro rs
  induction rs with
  | nil =>
    intro acc d h _
    subst h
    exact ⟨rfl, rfl, rfl, rfl, rfl⟩
  | cons r rs ih =>
    intro acc d h hv
    simp only [decideTradeSimGo] at h
    split at h
    · exact ih _ d h hv
    · exact ih _ d h hv
    · subst h
      simp at hv

/-- C2 (confirmed): in all three engines (basic, master, simulator),
every returned decision with valid = false has direction = "none",
empty entry/stop/target placeholders and wait = true — both on the
basic engine's input-guard path and on registry exhaustion. -/
theorem c2_invalid_decision_shape (registry : List Rule) (data : Snapshot) (ctx : Ctx)
    (d : Decision)
    (h : decideTrade registry data ctx = Except.ok d
      ∨ decideTradeM registry data ctx = Except.ok d
      ∨ decideTradeSim registry data ctx = d)
    (hv : d.valid = false) :
    d.direction = Dir.none ∧ d.entry = JVal.empty ∧ d.stop = JVal.empty
      ∧ d.target = JVal.empty ∧ d.wait = true := by
  rcases h with h | h | h
  · unfold decideTrade at h
    split at h
    · simp only [Except.ok.injEq] at h
      subst h
      exact ⟨rfl, rfl, rfl, rfl, rfl⟩
    · exact decideTradeGo_ok_invalid data ctx registry [] d h hv
  · exact decideTradeGo_ok_invalid data ctx registry [] d h hv
  · exact decideTradeSimGo_invalid data ctx registry [] d h hv

/-- C2 witness: the exhaustion decision of the master engine run with
an empty registry has the invariant shape. -/
theorem c2_witness :
    dNoRule.direction = Dir.none ∧ dNoRule.entry = JVal.empty ∧ dNoRule.stop = JVal.empty
      ∧ dNoRule.target = JVal.empty ∧ dNoRule.wait = true :=
  c2_invalid_decision_shape [] snapC1 ctxC1 dNoRule (Or.inr (Or.inl rfl)) rfl

/-- C3 amended: only the inline simulator engine (src/unnamed/part_007)
catches a rule's exception: it appends the "Rule error" note after the
notes the rule had already pushed and continues with the remaining
rules in order, treating the throwing rule as returning no proposal;
the basic and master engines propagate the exception instead. -/
theorem c3_sim_engine_catches (rname msg : String) (ns : List Note) (rs : List Rule)
    (data : Snapshot) (ctx : Ctx) :
    decideTradeSim ({ name := rname, check := fun _ _ => ROut.throw msg ns } :: rs) data ctx
      = decideTradeSimGo data ctx rs
          (([Note.checking rname] ++ ns) ++ [Note.ruleError rname msg]) := rfl

/-- Wait flag of a proposal of the baseline flag rule. -/
theorem bullishFlagCheck_prop_wait (data : Snapshot) (ctx : Ctx) (p : Proposal) (ns : List Note)
    (h : bullishFlagCheck data ctx = ROut.prop p ns) :
    p.direction = Dir.call ∧ (p.wait = true ↔ data.price.coerceNum > p.entry.toNumber * 1.02) := by
  simp only [bullishFlagCheck] at h
  by_cases hflag : (detectBullFlag data).isFlag = false
  · rw [if_pos hflag] at h
    simp at h
  · rw [if_neg hflag] at h
    simp only [ROut.prop.injEq] at h
    obtain ⟨hp, -⟩ := h
    subst hp
    exact ⟨rfl, by simp [JVal.toNumber]⟩

/-- Direction and wait flag of a proposal of the baseline trend rule. -/
theorem basicMATrendCheck_prop_wait (data : Snapshot) (ctx : Ctx) (p : Proposal) (ns : List Note)
    (h : basicMATrendCheck data ctx = ROut.prop p ns) :
    (p.direction = Dir.call ∧ (p.wait = true ↔ data.price.coerceNum > p.entry.toNumber * 1.02))
    ∨ (p.direction = Dir.put ∧ (p.wait = true ↔ data.price.coerceNum < p.entry.toNumber * 0.98)) := by
  simp only [basicMATrendCheck] at h
  by_cases hmiss : (data.price.isMissing || data.maFast.isMissing || data.maSlow.isMissing) = true
  · rw [if_pos hmiss] at h
    simp at h
  · rw [if_neg hmiss] at h
    by_cases hup : data.maFast.coerceNum > data.maSlow.coerceNum
      ∧ data.price.coerceNum > data.maFast.coerceNum
    · rw [if_pos hup] at h
      simp only [ROut.prop.injEq] at h
      obtain ⟨hp, -⟩ := h
      subst hp
      exact Or.inl ⟨rfl, by simp [JVal.toNumber]⟩
    · rw [if_neg hup] at h
      by_cases hdn : data.maFast.coerceNum < data.maSlow.coerceNum
        ∧ data.price.coerceNum < data.maFast.coerceNum
      · rw [if_pos hdn] at h
        simp only [ROut.prop.injEq] at h
        obtain ⟨hp, -⟩ := h
        subst hp
        exact Or.inr ⟨rfl, by simp [JVal.toNumber]⟩
      · rw [if_neg hdn] at h
        simp at h

/-- Every valid decision of the first-match loop is the payload of a
proposal returned by some rule of the registry. -/
theorem decideTradeGo_ok_valid (data : Snapshot) (ctx : Ctx) :
    ∀ (rs : List Rule) (acc : List Note) (d : Decision),
      decideTradeGo data ctx rs acc = Except.ok d → d.valid = true →
      ∃ r, r ∈ rs ∧ ∃ ns, r.check data ctx
        = ROut.prop { direction := d.direction, entry := d.entry, stop := d.stop,
                      target := d.target, wait := d.wait } ns := by
  intro rs
  induction rs with
  | nil =>
    intro acc d h hv
    simp only [decideTradeGo, Except.ok.injEq] at h
    subst h
    simp at hv
  | cons r rs ih =>
    intro acc d h hv
    simp only [decideTradeGo] at h
    split at h
    · simp at h
    · obtain ⟨r2, hr2, ns, hns⟩ := ih _ d h hv
      exact ⟨r2, List.mem_cons_of_mem _ hr2, ns, hns⟩
    · rename_i p ns hc
      simp only [Except.ok.injEq] at h
      subst h
      exact ⟨r, List.mem_cons_self _ _, ns, by rw [hc]⟩

/-- C4 (confirmed): every valid decision of the basic engine with its
baseline registry satisfies: wait = true iff price has moved past the
computed entry in the adverse direction by more than 2% of the entry
(call branch: price > entry*1.02; put branch: price < entry*0.98). -/
theorem c4_baseline_wait_iff (data : Snapshot) (ctx : Ctx) (d : Decision)
    (h : decideTrade rulesBasic data ctx = Except.ok d) (hv : d.valid = true) :
    (d.direction = Dir.call → (d.wait = true ↔ data.price.coerceNum > d.entry.toNumber * 1.02)) ∧
    (d.direction = Dir.put → (d.wait = true ↔ data.price.coerceNum < d.entry.toNumber * 0.98)) := by
  unfold decideTrade at h
  split at h
  · simp only [Except.ok.injEq] at h
    subst h
    simp at hv
  · obtain ⟨r, hr, ns, hc⟩ := decideTradeGo_ok_valid data ctx rulesBasic [] d h hv
    simp only [rulesBasic, List.mem_cons, List.mem_singleton, List.not_mem_nil, or_false] at hr
    rcases hr with hr | hr
    · subst hr
      obtain ⟨hdir, hiff⟩ := bullishFlagCheck_prop_wait data ctx _ _ hc
      have hdir2 : d.direction = Dir.call := hdir
      constructor
      · intro _
        exact hiff
      · intro hput
        rw [hdir2] at hput
        simp at hput
    · subst hr
      rcases basicMATrendCheck_prop_wait data ctx _ _ hc with ⟨hdir, hiff⟩ | ⟨hdir, hiff⟩
      · have hdir2 : d.direction = Dir.call := hdir
        constructor
        · intro _
          exact hiff
        · intro hput
          rw [hdir2] at hput
          simp at hput
      · have hdir2 : d.direction = Dir.put := hdir
        constructor
        · intro hcall
          rw [hdir2] at hcall
          simp at hcall
        · intro _
          exact hiff

/-- C4 witness: the baseline registry fires its trend rule's put
branch on snapTrendPut; the biconditional holds there. -/
theorem c4_witness :
    (dTrendPut.direction = Dir.call →
      (dTrendPut.wait = true ↔ snapTrendPut.price.coerceNum > dTrendPut.entry.toNumber * 1.02)) ∧
    (dTrendPut.direction = Dir.put →
      (dTrendPut.wait = true ↔ snapTrendPut.price.coerceNum < dTrendPut.entry.toNumber * 0.98)) := by
  have hrun : decideTrade rulesBasic snapTrendPut ctxEmpty = Except.ok dTrendPut := by
    norm_num [decideTrade, decideTradeGo, rulesBasic, snapTrendPut, dTrendPut,
      bullishFlagCheck, basicMATrendCheck, detectBullFlag, JOpt.isMissing, JOpt.coerceNum,
      JOpt.notNaN, JOpt.truthy, nextEvenDown, toFixed2]
  exact c4_baseline_wait_iff snapTrendPut ctxEmpty dTrendPut hrun rfl

/-- A present number never counts as missing. -/
theorem JOpt.isMissing_num (q : ℚ) : (JOpt.num q).isMissing = false := rfl

/-- Coercion of a present number is the number itself. -/
theorem JOpt.coerceNum_num (q : ℚ) : (JOpt.num q).coerceNum = q := rfl

/-- C6 amended: with the five required fields present and a positive
day range, detectBullFlag flags iff (a) range position ≥ 0.6, (b)
price above both MAs, (c) |maFast − maSlow| ≤ 1% of price, and (d)
whenever ma200 passes `!isNaN` — i.e. it is a number or an explicit
null, the latter coerced to 0 — the three-MA spread is ≤ 2% of price;
condition (d) is skipped only for an undefined or NaN ma200, not for a
null one. The detector fails closed when a required field is missing
or the day range is non-positive. -/
theorem c6_flag_characterization :
    (∀ (p dh dl mf ms : ℚ) (m : JOpt), 0 < dh - dl →
      ((detectBullFlag
            { price := .num p, dayHigh := .num dh, dayLow := .num dl,
              maFast := .num mf, maSlow := .num ms, ma200 := m }).isFlag = true
        ↔ (0.6 ≤ (p - dl) / (dh - dl) ∧ (p > mf ∧ p > ms) ∧ |mf - ms| ≤ p * 0.01 ∧
            (m.notNaN = true →
              max (max mf ms) m.coerceNum - min (min mf ms) m.coerceNum ≤ p * 0.02)))) ∧
    (∀ s : Snapshot,
      (s.price.isMissing = true ∨ s.dayHigh.isMissing = true ∨ s.dayLow.isMissing = true
        ∨ s.maFast.isMissing = true ∨ s.maSlow.isMissing = true) →
      (detectBullFlag s).isFlag = false) ∧
    (∀ (p dh dl mf ms : ℚ) (m : JOpt), dh - dl ≤ 0 →
      (detectBullFlag
          { price := .num p, dayHigh := .num dh, dayLow := .num dl,
            maFast := .num mf, maSlow := .num ms, ma200 := m }).isFlag = false) := by
  refine ⟨?_, ?_, ?_⟩
  · intro p dh dl mf ms m hr
    simp only [detectBullFlag, JOpt.isMissing_num, JOpt.coerceNum_num, Bool.or_false,
      Bool.or_self]
    rw [if_neg (not_le.mpr hr)]
    by_cases h1 : (p - dl) / (dh - dl) < 0.6
    · rw [if_pos h1]
      constructor
      · intro hx
        exact absurd hx (by decide)
      · intro hc
        exact absurd hc.1 (not_le.mpr h1)
    · rw [if_neg h1]
      by_cases h2 : p > mf ∧ p > ms
      · rw [if_pos h2]
        by_cases h3 : |mf - ms| > p * 0.01
        · rw [if_pos h3]
          constructor
          · intro hx
            exact absurd hx (by decide)
          · rintro ⟨-, -, hc, -⟩
            exact absurd hc (not_le.mpr h3)
        · rw [if_neg h3]
          by_cases h4 : m.notNaN = true
          · rw [if_pos h4]
            by_cases h5 : max (max mf ms) m.coerceNum - min (min mf ms) m.coerceNum > p * 0.02
            · rw [if_pos h5]
              constructor
              · intro hx
                exact absurd hx (by decide)
              · rintro ⟨-, -, -, hc⟩
                exact absurd (hc h4) (not_le.mpr h5)
            · rw [if_neg h5]
              constructor
              · intro _
                exact ⟨not_lt.mp h1, h2, not_lt.mp h3, fun _ => not_lt.mp h5⟩
              · intro _
                rfl
          · rw [if_neg h4]
            constructor
            · intro _
              exact ⟨not_lt.mp h1, h2, not_lt.mp h3, fun hm => absurd hm h4⟩
            · intro _
              rfl
      · rw [if_neg h2]
        constructor
        · intro hx
          exact absurd hx (by decide)
        · rintro ⟨-, hc, -⟩
          exact absurd hc h2
  · intro s h
    simp only [detectBullFlag]
    rcases h with h | h | h | h | h <;> rw [if_pos (by simp [h])]
  · intro p dh dl mf ms m hr
    simp only [detectBullFlag, JOpt.isMissing_num, JOpt.coerceNum_num, Bool.or_false,
      Bool.or_self]
    rw [if_pos hr]
    rfl

/-- C6 witness: the characterization applied at the worked example
snapshot, whose conditions all hold. -/
theorem c6_witness : (detectBullFlag snapC5).isFlag = true := by
  refine (c6_flag_characterization.1 110 112 100 109 109.2 (JOpt.num 109.5) (by norm_num)).mpr ?_
  have hmax : max (max (109:ℚ) 109.2) 109.5 = 109.5 := by
    rw [max_eq_right (by norm_num : (109:ℚ) ≤ 109.2),
        max_eq_right (by norm_num : (109.2:ℚ) ≤ 109.5)]
  have hmin : min (min (109:ℚ) 109.2) 109.5 = 109 := by
    rw [min_eq_left (by norm_num : (109:ℚ) ≤ 109.2),
        min_eq_left (by norm_num : (109:ℚ) ≤ 109.5)]
  refine ⟨by norm_num, by norm_num, ?_, ?_⟩
  · rw [abs_of_nonpos (by norm_num)]
    norm_num
  · intro _
    simp only [JOpt.coerceNum_num, hmax, hmin]
    norm_num

/-- C7 amended: for every valid decision the recommendation buckets
are daysToExpiry ≤ 2 (aggressive candidate, index 1), 2 < daysToExpiry
≤ 10 (at-entry candidate, index 0) and daysToExpiry > 10 (conservative
candidate, index 2); hence 2 → aggressive, 7 → at-entry, and both 15
and 30 → conservative. -/
theorem c7_bucket_mapping (dec : Decision) (u : String) (iv : Option String)
    (hv : dec.valid = true) :
    ((pickOptionsContract dec (some 2) u iv).recommended
        = (pickOptionsContract dec (some 2) u iv).candidates.get? 1) ∧
    ((pickOptionsContract dec (some 7) u iv).recommended
        = (pickOptionsContract dec (some 7) u iv).candidates.get? 0) ∧
    ((pickOptionsContract dec (some 15) u iv).recommended
        = (pickOptionsContract dec (some 15) u iv).candidates.get? 2) ∧
    ((pickOptionsContract dec (some 30) u iv).recommended
        = (pickOptionsContract dec (some 30) u iv).candidates.get? 2) ∧
    ((pickOptionsContract dec (some 2) u iv).candidates.map Candidate.styleHint
        = ["balanced risk/reward, clean alignment with entry",
           "cheaper, higher leverage, more aggressive",
           "safer, more expensive, more forgiving"]) := by
  simp only [pickOptionsContract, hv]
  norm_num

/-- C7 witness: the bucket mapping instantiated at a concrete valid
call decision. -/
theorem c7_witness :
    ((pickOptionsContract dEx (some 2) "T" Option.none).recommended
        = (pickOptionsContract dEx (some 2) "T" Option.none).candidates.get? 1) ∧
    ((pickOptionsContract dEx (some 7) "T" Option.none).recommended
        = (pickOptionsContract dEx (some 7) "T" Option.none).candidates.get? 0) ∧
    ((pickOptionsContract dEx (some 15) "T" Option.none).recommended
        = (pickOptionsContract dEx (some 15) "T" Option.none).candidates.get? 2) ∧
    ((pickOptionsContract dEx (some 30) "T" Option.none).recommended
        = (pickOptionsContract dEx (some 30) "T" Option.none).candidates.get? 2) ∧
    ((pickOptionsContract dEx (some 2) "T" Option.none).candidates.map Candidate.styleHint
        = ["balanced risk/reward, clean alignment with entry",
           "cheaper, higher leverage, more aggressive",
           "safer, more expensive, more forgiving"]) :=
  c7_bucket_mapping dEx "T" Option.none rfl

/-- Rounding to two decimals moves a value by less than 1. -/
theorem round2_add_one_gt (e : ℚ) : e < round2 (e + 1) := by
  have h := Int.sub_one_lt_floor ((e + 1) * 100 + 1 / 2)
  rw [round2, round_eq]
  rw [lt_div_iff₀ (by norm_num : (0:ℚ) < 100)]
  linarith

/-- Rounding to two decimals moves a value by less than 1. -/
theorem round2_sub_one_lt (e : ℚ) : round2 (e - 1) < e := by
  have h := Int.floor_le ((e - 1) * 100 + 1 / 2)
  rw [round2, round_eq]
  rw [div_lt_iff₀ (by norm_num : (0:ℚ) < 100)]
  linarith

/-- A strike strictly above the entry is out of the money for a call. -/
theorem moneynessOf_call_otm (s e : ℚ) (h : e < s) : moneynessOf Dir.call s e = Money.OTM := by
  simp only [moneynessOf]
  rw [if_neg (not_lt_of_gt h), if_neg (ne_of_gt h)]

/-- A strike strictly below the entry is out of the money for a put. -/
theorem moneynessOf_put_otm (s e : ℚ) (h : s < e) : moneynessOf Dir.put s e = Money.OTM := by
  simp only [moneynessOf]
  rw [if_neg (not_lt_of_gt h), if_neg (ne_of_lt h)]

/-- C10 (confirmed): calling pickOptionsContract with daysToExpiry =
null, as the automatic options page does, lands in the shortest bucket
("0DTE–2DTE scalp", because null compares as 0 in the ≤ 2 test) and
recommends the candidate at index 1, which is one step
out-of-the-money for either direction. -/
theorem c10_null_expiry_aggressive (dec : Decision) (u : String)
    (hv : dec.valid = true) (hd : dec.direction = Dir.call ∨ dec.direction = Dir.put) :
    ((pickOptionsContract dec Option.none u Option.none).notes.get? 3
        = some (Note.timeframe "0DTE–2DTE scalp")) ∧
    ((pickOptionsContract dec Option.none u Option.none).recommended
        = (pickOptionsContract dec Option.none u Option.none).candidates.get? 1) ∧
    (((pickOptionsContract dec Option.none u Option.none).candidates.get? 1).map
        Candidate.moneyness = some Money.OTM) := by
  have h1 := round2_add_one_gt dec.entry.toNumber
  have h2 := round2_sub_one_lt dec.entry.toNumber
  refine ⟨?_, ?_, ?_⟩
  · simp only [pickOptionsContract, hv]
    norm_num
  · simp only [pickOptionsContract, hv]
    norm_num
  · rcases hd with hd | hd
    · simp only [pickOptionsContract, hv, hd]
      norm_num
      exact moneynessOf_call_otm _ _ h1
    · simp only [pickOptionsContract, hv, hd]
      norm_num
      exact moneynessOf_put_otm _ _ h2

/-- C10 witness: the null-expiry behaviour at a concrete valid call
decision. -/
theorem c10_witness :
    ((pickOptionsContract dEx Option.none "T" Option.none).notes.get? 3
        = some (Note.timeframe "0DTE–2DTE scalp")) ∧
    ((pickOptionsContract dEx Option.none "T" Option.none).recommended
        = (pickOptionsContract dEx Option.none "T" Option.none).candidates.get? 1) ∧
    (((pickOptionsContract dEx Option.none "T" Option.none).candidates.get? 1).map
        Candidate.moneyness = some Money.OTM) :=
  c10_null_expiry_aggressive dEx "T" rfl (Or.inl rfl)

/-- C9 (confirmed): with a finite positive price and an invalid
decision, simulateFuture emits 30 values, each within price ± 1% of
price (the noise term is bounded by 0.1% of price per draw), and the
output is the same function of the snapshot and the random source
whatever the decision's direction field holds. -/
theorem c9_sim_invalid_bounds_and_independence (rand : ℕ → ℚ) (data : Snapshot)
    (dec : Decision) (p : ℚ)
    (hr : ∀ i, 0 ≤ rand i ∧ rand i < 1) (hp : data.price = JOpt.num p) (hpos : 0 < p)
    (hv : dec.valid = false) :
    ((simulateFuture rand data dec).length = 30 ∧
      ∀ x ∈ simulateFuture rand data dec, ∃ q : ℚ, x = some q ∧ |q - p| ≤ p * 0.01) ∧
    (∀ dir : Dir, simulateFuture rand data { dec with direction := dir }
        = simulateFuture rand data dec) := by
  constructor
  · constructor
    · simp [simulateFuture, hv]
    · intro x hx
      simp only [simulateFuture, hv, hp, JOpt.jsNum, if_pos, eq_self_iff_true, true_or,
        if_true, List.mem_map, List.mem_range] at hx
      obtain ⟨i, -, rfl⟩ := hx
      obtain ⟨h0, h1⟩ := hr i
      refine ⟨p + (rand i - 0.5) * (p * 0.002), ?_, ?_⟩
      · simp [jadd, jmul, jsub, Option.map₂]
      · have habs : |rand i - 0.5| ≤ 0.5 := by
          rw [abs_le]
          constructor <;> linarith
        have hmul : |(rand i - 0.5) * (p * 0.002)| ≤ 0.5 * (p * 0.002) := by
          rw [abs_mul]
          have hnn : |p * 0.002| = p * 0.002 := abs_of_nonneg (by positivity)
          rw [hnn]
          exact mul_le_mul_of_nonneg_right habs (by positivity)
        have : p + (rand i - 0.5) * (p * 0.002) - p = (rand i - 0.5) * (p * 0.002) := by ring
        rw [this]
        calc |(rand i - 0.5) * (p * 0.002)| ≤ 0.5 * (p * 0.002) := hmul
          _ ≤ p * 0.01 := by nlinarith
  · intro dir
    simp [simulateFuture, hv]

/-- C9 witness: the bound and direction-independence applied at price
100 with the constant random source 0.5. -/
theorem c9_witness :
    (simulateFuture randHalf snapC1 { decInvalid with direction := Dir.call }
      = simulateFuture randHalf snapC1 decInvalid) ∧
    (simulateFuture randHalf snapC1 decInvalid).length = 30 := by
  have h := c9_sim_invalid_bounds_and_independence randHalf snapC1 decInvalid 100
    (fun i => by norm_num [randHalf]) rfl (by norm_num) rfl
  exact ⟨h.2 Dir.call, h.1.1⟩

end Formula1
